import Mathlib

/-!
Verification of the Circle-of-Willis model-generation scripts.

Shallow embedding of the network-model builder, boundary-condition
synthesizer, patient-specific re-geometry and model validator found in
`src/scripts/` (`V12_generate_data.py`, `V11_generate.py`, `V22_generate.py`,
`V23_generate.py`, `V20_generate.py`, `validate_model.py`).

Numbers are modelled over `ℚ`.  The Python constant `math.pi` is an
irrational number; every definition that uses it is parameterized by a
rational `pi` (all claims hold for an arbitrary positive value of the
parameter, and concrete witnesses instantiate it with `314159/100000`).
Python code that can raise an exception is embedded in `Except String`;
in particular a float division is embedded by `pdiv`, which returns
`Except.error` exactly when the divisor is zero, mirroring Python's
`ZeroDivisionError`.
-/

namespace V12

/-- Fluid viscosity `MU = 0.0035` from `V12_generate_data.py`. -/
def MU : ℚ := 35 / 10000

/-- Blood density `RHO = 1060.0`. -/
def RHO : ℚ := 1060

/-- Young modulus `E = 4e6`. -/
def E : ℚ := 4000000

/-- Wall thickness fraction `H_FRAC = 0.10`. -/
def H_FRAC : ℚ := 1 / 10

/-- Proximal resistance fraction `RPROX_FRAC = 0.30`. -/
def RPROX_FRAC : ℚ := 3 / 10

/-- Minimum resistance `MIN_R = 1e6`. -/
def MIN_R : ℚ := 1000000

/-- Minimum compliance `MIN_C = 1e-12`. -/
def MIN_C : ℚ := 1 / 1000000000000

/-- Minimum inertance `MIN_L = 1e5`. -/
def MIN_L : ℚ := 100000

/-- Minimum radius `MIN_Radius = 2.5e-4`. -/
def MIN_Radius : ℚ := 25 / 100000

/-- Minimum length `MIN_Length = 1e-3`. -/
def MIN_Length : ℚ := 1 / 1000

/-- One row of the arterial table: the fields of a vessel segment that the
generator scripts actually read back (identifier, display name, the two
endpoint nodes, the starting diameter and the segment length in SI units). -/
structure Artery where
  ID : String
  name : String
  start_node : String
  end_node : String
  start_diameter : ℚ
  length : ℚ
  deriving DecidableEq, Repr

/-- Python float division: raises `ZeroDivisionError` when the divisor is
zero, otherwise returns the quotient. -/
def pdiv (a b : ℚ) : Except String ℚ :=
  if b = 0 then .error "ZeroDivisionError: float division by zero"
  else .ok (a / b)

/-- `compute_R_total(r, L) = max((8.0 * MU * L) / (math.pi * r**4), MIN_R)`.
The division raises when `pi * r ^ 4 = 0`. -/
def compute_R_total (pi r L : ℚ) : Except String ℚ :=
  (pdiv (8 * MU * L) (pi * r ^ 4)).map (fun x => max x MIN_R)

/-- `compute_C(r)`: thin-wall compliance, clamped at `MIN_C`; returns `MIN_C`
outright when the wall thickness `h = H_FRAC * r` is not positive. -/
def compute_C (pi r : ℚ) : ℚ :=
  let h := H_FRAC * r
  if h ≤ 0 then MIN_C
  else max ((pi * r ^ 3) / (2 * E * h)) MIN_C

/-- `compute_L(r, L)`: inertance `RHO * L / A` with `A = math.pi * r**2`,
clamped at `MIN_L`; returns `MIN_L` outright when `A` is not positive. -/
def compute_L (pi r L : ℚ) : ℚ :=
  let A := pi * r ^ 2
  if A ≤ 0 then MIN_L
  else max ((RHO * L) / A) MIN_L

/-- Code-point lexicographic comparison of character lists: the order Python
`sorted` uses on strings. -/
def lexLe : List Char → List Char → Bool
  | [], _ => true
  | _ :: _, [] => false
  | c :: cs, d :: ds =>
    if c.toNat < d.toNat then true
    else if d.toNat < c.toNat then false
    else lexLe cs ds

/-- Python's string ordering, as a proposition. -/
def strLe (a b : String) : Prop := lexLe a.data b.data = true

instance : DecidableRel strLe := fun a b => instDecidableEqBool (lexLe a.data b.data) true

/-- Python `sorted` on a list of strings. -/
def pysorted (l : List String) : List String := List.insertionSort strLe l

/-- The list of node identifiers as they occur over the artery list
(start node then end node of each row, in row order). -/
def nodeList (arteries : List Artery) : List String :=
  arteries.map (·.start_node) ++ arteries.map (·.end_node)

/-- `unique_nodes_1d = sorted({start nodes} | {end nodes})`. -/
def unique_nodes_1d (arteries : List Artery) : List String :=
  pysorted (nodeList arteries).dedup

/-- One step of the degree-counting loop: increment the degree of the start
node and of the end node of one artery. -/
def degreeStep (m : String → ℕ) (a : Artery) : String → ℕ :=
  fun n =>
    (if a.start_node = n then 1 else 0) +
    (if a.end_node = n then 1 else 0) + m n

/-- The degree dictionary built by the loop
`for art in arteries: degree[s] += 1; degree[e] += 1`
(absent keys read as `0`). -/
def degreeMap (arteries : List Artery) : String → ℕ :=
  arteries.foldl degreeStep (fun _ => 0)

/-- The number of vessel endpoints that reference node `n`. -/
def endpointCount (arteries : List Artery) (n : String) : ℕ :=
  (arteries.countP (fun a => a.start_node = n)) +
  (arteries.countP (fun a => a.end_node = n))

/-- `terminal_nodes = sorted([n for n, d in degree.items() if d == 1])`. -/
def terminal_nodes (arteries : List Artery) : List String :=
  pysorted (((nodeList arteries).dedup).filter (fun n => degreeMap arteries n = 1))

/-- `outlet_nodes = [n for n in terminal_nodes if n != HEART_INLET]`. -/
def outlet_nodes (arteries : List Artery) (inlet : String) : List String :=
  (terminal_nodes arteries).filter (fun n => n ≠ inlet)

/-- Result of the inlet/outlet classification phase of `V12_generate_data.py`:
the inlet actually used, whether the non-degree-1 warning was printed, and
the outlet list handed to Windkessel synthesis. -/
structure V12Result where
  inlet : String
  warned : Bool
  outlets : List String
  deriving DecidableEq, Repr

/-- The inlet/outlet phase: raise `RuntimeError` when the chosen heart inlet
is not a 1D node, otherwise warn (without aborting) when it is not
degree-1 and build the outlet list. -/
def buildV12core (arteries : List Artery) (inlet : String) : Except String V12Result :=
  if inlet ∈ unique_nodes_1d arteries then
    .ok { inlet := inlet
        , warned := inlet ∉ terminal_nodes arteries
        , outlets := outlet_nodes arteries inlet }
  else
    .error ("RuntimeError: Chosen heart inlet " ++ inlet ++
            " is not a 1D node in this network.")

/-- One geometry-index entry `(r, Lm)` contributed by an artery row:
`r = max(d * 0.5, MIN_Radius)` and `Lm = max(length, MIN_Length)`. -/
def geoEntry (a : Artery) : ℚ × ℚ :=
  (max (a.start_diameter * (1 / 2)) MIN_Radius, max a.length MIN_Length)

/-- `geo[node]`: the geometry entries appended for node `n`, in row order
(each row contributes for its start node and for its end node). -/
def geoEntries (arteries : List Artery) (n : String) : List (ℚ × ℚ) :=
  arteries.flatMap (fun a =>
    (if a.start_node = n then [geoEntry a] else []) ++
    (if a.end_node = n then [geoEntry a] else []))

/-- `avg_geo(node)`: the arithmetic mean radius/length of the entries
touching the node, or the fixed fallback `(1.0e-3, 0.02)` when the node is
absent from the geometry index. -/
def avg_geo (arteries : List Artery) (n : String) : ℚ × ℚ :=
  let es := geoEntries arteries n
  if es = [] then (1 / 1000, 1 / 50)
  else (((es.map Prod.fst).sum) / es.length, ((es.map Prod.snd).sum) / es.length)

/-- The four element values of one synthesized Windkessel circuit. -/
structure WK where
  Rprox : ℚ
  Rdist : ℚ
  Cval : ℚ
  Lin : ℚ
  deriving DecidableEq, Repr

/-- The body of the per-outlet Windkessel loop of `V12_generate_data.py`:
average geometry, total resistance, proximal/distal split, compliance, and
the damped inertance `compute_L(r, Lm) * 0.25`. -/
def windkessel (pi : ℚ) (arteries : List Artery) (n : String) : Except String WK :=
  match compute_R_total pi (avg_geo arteries n).1 (avg_geo arteries n).2 with
  | .error e => .error e
  | .ok Rtot =>
    .ok { Rprox := max (RPROX_FRAC * Rtot) MIN_R
        , Rdist := max ((1 - RPROX_FRAC) * Rtot) MIN_R
        , Cval := compute_C pi (avg_geo arteries n).1
        , Lin := compute_L pi (avg_geo arteries n).1 (avg_geo arteries n).2 * (1 / 4) }

/-- The boundary-circuit artifact (`pX.csv`) emitted for one outlet: the
edge rows `(type, name, node start, node end, initial condition, parameter)`
and the node rows `(type, name, initial condition)`. -/
structure PFile where
  edges : List (String × String × String × String × ℚ × ℚ)
  nodes : List (String × String × ℚ)
  deriving DecidableEq, Repr

/-- The rows written into an outlet's `pX.csv` file from its Windkessel
values (the numeric formatting of the writer is abstracted: the artifact
records the emitted parameter value itself). -/
def pfileOf (wk : WK) : PFile :=
  { edges :=
      [ ("resistor", "R0", "n1", "P1", 0, wk.Rprox)
      , ("resistor", "R2", "P1", "g", 0, wk.Rdist)
      , ("capacitor", "C1", "P1", "g", 0, wk.Cval)
      , ("inductor", "L1", "P1", "g", 0, wk.Lin) ]
  , nodes :=
      [ ("node", "n1", 100000)
      , ("node", "P1", 100000)
      , ("ground", "g", 100000) ] }

end V12

namespace V11

open V12 (Artery)

/-- `matchAt needle hay`: the needle occurs at the very head of `hay`. -/
def matchAt : List Char → List Char → Bool
  | [], _ => true
  | _ :: _, [] => false
  | c :: cs, d :: ds => c = d && matchAt cs ds

/-- `hasSub needle hay`: Python's substring test `needle in hay`. -/
def hasSub (needle : List Char) : List Char → Bool
  | [] => matchAt needle []
  | c :: t => matchAt needle (c :: t) || hasSub needle t

/-- Python `str.lower()` of a name, as a character list. -/
def lowerChars (s : String) : List Char :=
  s.data.map Char.toLower

/-- `name_contains(vessel, words)` from `detect_inlet_node`:
`any(w.lower() in vessel["name"].lower() for w in words)`. -/
def name_contains (a : Artery) (words : List String) : Bool :=
  words.any (fun w => hasSub (lowerChars w) (lowerChars a.name))

/-- Step-1 keyword list of `detect_inlet_node`. -/
def extracranial_keywords : List String := ["cca", "common", "extracranial", "carotid"]

/-- The step-5 fallback loop of `detect_inlet_node`: scan the artery list
keeping the start node of the current strictly-largest starting diameter,
starting from `best = None`, `best_d = -1.0`. -/
def fallbackLargest (arteries : List Artery) : Option String :=
  (arteries.foldl
    (fun (acc : Option String × ℚ) a =>
      if a.start_diameter > acc.2 then (some a.start_node, a.start_diameter) else acc)
    (none, -1)).1

/-- `detect_inlet_node(arteries)` from `V11_generate.py`: four sequential
scans (extracranial keywords, then `"ica"`, then vertebral keywords, then
the largest-diameter fallback), each returning the start node of the first
matching vessel. -/
def detect_inlet_node (arteries : List Artery) : Option String :=
  match arteries.find? (fun a => name_contains a extracranial_keywords) with
  | some a => some a.start_node
  | none =>
    match arteries.find? (fun a => name_contains a ["ica"]) with
    | some a => some a.start_node
    | none =>
      match arteries.find? (fun a => name_contains a ["va", "vertebral"]) with
      | some a => some a.start_node
      | none => fallbackLargest arteries

/-- The first vessel attaining the maximum starting diameter, together with
that diameter (a specification device used to characterize the fallback). -/
def firstMax : List Artery → Option (String × ℚ)
  | [] => none
  | a :: t =>
    (firstMax t).elim (some (a.start_node, a.start_diameter)) (fun sm =>
      if sm.2 ≤ a.start_diameter then some (a.start_node, a.start_diameter) else some sm)

/-- Modelled from the spec (§4.2 inlet selection policy, for comparison with
`detect_inlet_node`): ordered first-match-wins over the vessel list —
extracranial/common-carotid pattern, then internal-carotid, then vertebral,
then the explicit fallback to the start node of the (first) vessel with the
largest starting diameter. -/
def inletPolicy (arteries : List Artery) : Option String :=
  match arteries.find? (fun a => name_contains a extracranial_keywords) with
  | some a => some a.start_node
  | none =>
    match arteries.find? (fun a => name_contains a ["ica"]) with
    | some a => some a.start_node
    | none =>
      match arteries.find? (fun a => name_contains a ["va", "vertebral"]) with
      | some a => some a.start_node
      | none =>
        (arteries.find?
          (fun a => arteries.all (fun b => b.start_diameter ≤ a.start_diameter))).map
          (·.start_node)

end V11

namespace V22

/-- A JSON-like value, as loaded from the patient feature file. -/
inductive JVal where
  | jnum (q : ℚ)
  | jstr (s : String)
  | jarr (xs : List JVal)
  | jobj (fields : List (String × JVal))
  | jnull

/-- `dict.get(key)` on a JSON object's field list. -/
def jlookup (fields : List (String × JVal)) (k : String) : Option JVal :=
  (fields.find? (fun f => f.1 = k)).map (·.2)

/-- Python falsiness of a JSON value (`if not block: ...`). -/
def jFalsy : JVal → Bool
  | .jnum q => q = 0
  | .jstr s => s = ""
  | .jarr xs => xs.isEmpty
  | .jobj fs => fs.isEmpty
  | .jnull => true

/-- A JSON value read where a number is expected (anything else makes the
subsequent arithmetic raise, which `get_geom` catches). -/
def getNum : JVal → Option ℚ
  | .jnum q => some q
  | _ => none

/-- The fixed conservative default geometry of `get_geom`:
`(0.0015, 0.01)` metres. -/
def geomDefault : ℚ × ℚ := (15 / 10000, 1 / 100)

/-- `get_geom(label, segname)` from `V22_generate.py` (the same logic is
copied in `V23_generate.py`): look the label up in the feature mapping,
then the segment, unwrap a one-element list, and read
`radius.median` and `length` in millimetres; every failure path (missing
label, falsy block, missing or malformed segment, non-numeric fields) is
caught and replaced by the conservative default. -/
def get_geom (feat : List (String × JVal)) (label : Int) (segname : String) : ℚ × ℚ :=
  match jlookup feat (toString label) with
  | none => geomDefault
  | some block =>
    if jFalsy block then geomDefault
    else
      match block with
      | .jobj fs =>
        let segdata := jlookup fs segname
        let data : Option JVal :=
          match segdata with
          | some (.jarr xs) => xs.head?
          | other => other
        match data with
        | some (.jobj dfs) =>
          match jlookup dfs "radius", jlookup dfs "length" with
          | some (.jobj rfs), some lv =>
            match (jlookup rfs "median").bind getNum, getNum lv with
            | some r_mm, some l_mm => (r_mm / 1000, l_mm / 1000)
            | _, _ => geomDefault
          | _, _ => geomDefault
        | _ => geomDefault
      | _ => geomDefault

end V22

namespace V23

open V22 (JVal jlookup get_geom)

/-- A CSV row of an artifact file. -/
abbrev Row := List String

/-- The Circle-of-Willis vessel mapping `COW_VESSELS : ID → (label, segment)`
of `V23_generate.py`. -/
def COW_VESSELS : List (String × Int × String) :=
  [ ("A56", 1, "BA"), ("A59", 1, "BA")
  , ("A60", 2, "P1"), ("A61", 3, "P1")
  , ("A62", 8, "Pcom"), ("A63", 9, "Pcom")
  , ("A64", 2, "P2"), ("A65", 3, "P2")
  , ("A68", 11, "A1"), ("A69", 12, "A1")
  , ("A76", 11, "A2"), ("A78", 12, "A2")
  , ("A77", 10, "Acom")
  , ("A70", 5, "MCA"), ("A73", 7, "MCA") ]

/-- Dictionary lookup in the Circle-of-Willis mapping. -/
def cowLookup (vid : String) : Option (Int × String) :=
  (COW_VESSELS.find? (fun e => e.1 = vid)).map (·.2)

/-- Python `int(q)` on a rational: truncation toward zero. -/
def pyInt (q : ℚ) : Int :=
  if 0 ≤ q then ⌊q⌋ else ⌈q⌉

/-- `discretize(L_m) = max(5, int((L_m * 1000.0) / 5.0))`. -/
def discretize (L : ℚ) : Int :=
  max 5 (pyInt (L * 1000 / 5))

/-- One step of the loop collecting the original basilar segment lengths:
a `vis_f` row with ID `A56`/`A59` updates the corresponding slot when
column 9 parses as a float (`try: ... except: pass`), and a `vis_f` row with
no ID column raises `IndexError`. -/
def collectBAStep (parseF : String → Option ℚ)
    (st : Option ℚ × Option ℚ) (r : Row) : Except String (Option ℚ × Option ℚ) :=
  match r with
  | [] => .ok st
  | t :: rest =>
    if t ≠ "vis_f" then .ok st
    else
      match rest with
      | [] => .error "IndexError: list index out of range"
      | vid :: _ =>
        if vid = "A56" then
          match (r.get? 9).bind parseF with
          | some v => .ok (some v, st.2)
          | none => .ok st
        else if vid = "A59" then
          match (r.get? 9).bind parseF with
          | some v => .ok (st.1, some v)
          | none => .ok st
        else .ok st

/-- The scan for the original lengths of the two basilar rows `A56`, `A59`. -/
def collectBA (parseF : String → Option ℚ) (body : List Row) :
    Except String (Option ℚ × Option ℚ) :=
  body.foldlM (collectBAStep parseF) (none, none)

/-- The basilar length split of `modify_arterial`: proportional to the
original segment lengths when both are available with positive sum,
otherwise the equal-split fallback. -/
def basilarSplit (L56o L59o : Option ℚ) (L_ba : ℚ) : ℚ × ℚ :=
  match L56o, L59o with
  | some a, some b =>
    if 0 < a + b then (L_ba * (a / (a + b)), L_ba * (b / (a + b)))
    else (L_ba * (1 / 2), L_ba * (1 / 2))
  | _, _ => (L_ba * (1 / 2), L_ba * (1 / 2))

/-- Rewrite of one body row of `arterial.csv`: empty rows, non-`vis_f` rows
and rows whose vessel id is not in the Circle-of-Willis mapping are kept
as they are; a Circle-of-Willis `vis_f` row has exactly its six geometry
columns 5–10 overwritten (diameters, thicknesses, length, division points);
a `vis_f` row without an id column raises `IndexError`, and a mapped row
with fewer than 11 columns raises the script's `RuntimeError`.
`fmtQ`/`fmtN` abstract the writer's `"%.6f"`/`"%d"` numeric formatting. -/
def modifyRow (feat : List (String × JVal)) (fmtQ : ℚ → String) (fmtN : Int → String)
    (L56_new L59_new r_ba : ℚ) (r : Row) : Except String Row :=
  match r with
  | [] => .ok []
  | t :: rest =>
    if t ≠ "vis_f" then .ok (t :: rest)
    else
      match rest.head? with
      | none => .error "IndexError: list index out of range"
      | some vid =>
        match cowLookup vid with
        | none => .ok (t :: rest)
        | some ls =>
          if (t :: rest).length < 11 then
            .error ("RuntimeError: Unexpected vis_f row format for " ++ vid)
          else
            let geom : ℚ × ℚ × ℚ × Int :=
              if vid = "A56" ∨ vid = "A59" then
                let d := 2 * r_ba
                let L := if vid = "A56" then L56_new else L59_new
                (d, (1 / 10) * d, L, discretize L)
              else
                let rl := get_geom feat ls.1 ls.2
                let d := 2 * rl.1
                (d, (1 / 10) * d, rl.2, discretize rl.2)
            .ok (((((((t :: rest).set 5 (fmtQ geom.1)).set 6 (fmtQ geom.1)).set
                    7 (fmtQ geom.2.1)).set 8 (fmtQ geom.2.1)).set
                    9 (fmtQ geom.2.2.1)).set 10 (fmtN geom.2.2.2))

/-- `modify_arterial` of `V23_generate.py` over the row list of
`arterial.csv` (header row first): collect the original basilar lengths,
derive the patient basilar split, and rewrite only the mapped
Circle-of-Willis rows. -/
def modify_arterial (feat : List (String × JVal)) (parseF : String → Option ℚ)
    (fmtQ : ℚ → String) (fmtN : Int → String) (rows : List Row) :
    Except String (List Row) :=
  match rows with
  | [] => .error "RuntimeError: arterial.csv is empty"
  | header :: body =>
    match collectBA parseF body with
    | .error e => .error e
    | .ok o =>
      let rl := get_geom feat 1 "BA"
      let sp := basilarSplit o.1 o.2 rl.2
      match body.mapM (modifyRow feat fmtQ fmtN sp.1 sp.2 rl.1) with
      | .error e => .error e
      | .ok body' => .ok (header :: body')

/-- A generated model directory: the four kinds of artifacts the V23
generator clones from the baseline. -/
structure Model where
  arterial : List Row
  main : List Row
  pfiles : List (String × List Row)
  heart : List Row
  deriving DecidableEq, Repr

/-- The whole V23 run: clone the baseline model, then rewrite only the
`arterial.csv` artifact of the clone. -/
def v23Run (feat : List (String × JVal)) (parseF : String → Option ℚ)
    (fmtQ : ℚ → String) (fmtN : Int → String) (base : Model) :
    Except String Model :=
  (modify_arterial feat parseF fmtQ fmtN base.arterial).map
    (fun a => { base with arterial := a })

end V23

namespace V20

/-- The junction-node name set `junction_nodes` of `generate_arterial` in
`V20_generate.py` (a Python `set`, so its iteration order is an
unspecified permutation of these elements). -/
def junction_nodes : List String :=
  ["cow_n1", "cow_n2", "cow_n3", "cow_n4", "cow_n5"]

/-- The junction-node block appended to `arterial.csv` by
`for node in junction_nodes: lines.append(f"node,{node},0,4.27E+10,")`,
parameterized by the set-iteration order actually observed. -/
def junctionLines (order : List String) : List String :=
  order.map (fun node => "node," ++ node ++ ",0,4.27E+10,")

end V20

namespace Validator

/-- The state accumulated by the `main.csv` parsing loop of
`validate_model.py`: declared nodes, `lumped` triples
`(model, main node, model node)` and `moc` pairs `(main node, model name)`. -/
structure Parsed where
  declared : List String
  lumped : List (String × String × String)
  moc : List (String × String)
  deriving DecidableEq, Repr

/-- The first cell of a row is skipped when it starts with `#` or strips to
the empty string. -/
def skipCell (c : String) : Bool :=
  (match c.data with
   | '#' :: _ => true
   | _ => false) || c.data.all Char.isWhitespace

/-- The `while i + 1 < len(line)` pairing loop of the `moc` branch, applied
to the cells from index 2 on. -/
def mocPairs : List String → List (String × String)
  | a :: b :: rest => (a, b) :: mocPairs rest
  | _ => []

/-- One iteration of the `main.csv` parsing loop.  A `node` row without a
name raises `IndexError`; a `lumped` row with fewer than four cells makes
the tuple unpacking raise `ValueError`. -/
def parseLine (p : Parsed) (line : List String) : Except String Parsed :=
  match line with
  | [] => .ok p
  | c :: rest =>
    if skipCell c then .ok p
    else if c = "node" then
      match rest with
      | x :: _ => .ok { p with declared := p.declared ++ [x] }
      | [] => .error "IndexError: list index out of range"
    else if c = "lumped" then
      match rest with
      | m :: mn :: md :: _ => .ok { p with lumped := p.lumped ++ [(m, mn, md)] }
      | _ => .error "ValueError: not enough values to unpack"
    else if c = "moc" then
      .ok { p with moc := p.moc ++ mocPairs (rest.drop 1) }
    else .ok p

/-- Parsing of all `main.csv` rows. -/
def parseMain (rows : List (List String)) : Except String Parsed :=
  rows.foldlM parseLine ⟨[], [], []⟩

/-- The connection pairs harvested from one `pX.csv` file: `next(reader)`
raises `StopIteration` on an empty file, then every remaining row with at
least two cells contributes `(row[0], stem)` and `(row[1], stem)`. -/
def pxFileConns (stem : String) (rows : List (List String)) :
    Except String (List (String × String)) :=
  match rows with
  | [] => .error "StopIteration"
  | _ :: rest =>
    .ok (rest.flatMap (fun row =>
      match row with
      | a :: b :: _ => [(a, stem), (b, stem)]
      | _ => []))

/-- Collection of the `px_connections` set over all `pX.csv` files. -/
def pxParse (files : List (String × List (List String))) :
    Except String (List (String × String)) :=
  files.foldlM (fun acc f => (pxFileConns f.1 f.2).map (acc ++ ·)) []

/-- The error message for a `lumped` node/model-node mismatch. -/
def lumpedMismatchMsg (model main_node model_node : String) : String :=
  "[LUMPED] Model " ++ model ++ ": mismatch " ++ main_node ++ " != " ++ model_node

/-- The error message for an undeclared `lumped` main node. -/
def lumpedUndeclaredMsg (model main_node : String) : String :=
  "[LUMPED] Model " ++ model ++ ": node " ++ main_node ++ " not declared"

/-- The error message for an undeclared `moc` node. -/
def mocUndeclaredMsg (main_node model : String) : String :=
  "[MOC] Node " ++ main_node ++ " used in model " ++ model ++ " not declared"

/-- The `lumped` checking loop: every entry contributes its mismatch error
and its undeclared-node error independently, accumulated in order. -/
def lumpedErrors (p : Parsed) : List String :=
  p.lumped.flatMap (fun t =>
    (if t.2.2 ≠ t.2.1 then [lumpedMismatchMsg t.1 t.2.1 t.2.2] else []) ++
    (if t.2.1 ∈ p.declared then [] else [lumpedUndeclaredMsg t.1 t.2.1]))

/-- The `moc` checking loop: one undeclared-node error per dangling pair. -/
def mocErrors (p : Parsed) : List String :=
  p.moc.flatMap (fun t =>
    if t.1 ∈ p.declared then [] else [mocUndeclaredMsg t.1 t.2])

/-- The two set differences `px_connections - moc_set` and
`moc_set - px_connections` (sets modelled as deduplicated lists). -/
def pxErrors (conns : List (String × String)) (p : Parsed) : List String :=
  ((conns.dedup.filter (fun c => c ∉ p.moc)).map (fun c =>
      "[pX.csv] Node " ++ c.1 ++ " in " ++ c.2 ++ ".csv not declared in main.csv")) ++
  ((p.moc.dedup.filter (fun c => c ∉ conns)).map (fun c =>
      "[main.csv] Node " ++ c.1 ++ " for model " ++ c.2 ++
      " not found in any pX.csv file"))

/-- The whole validator run of `validate_model.py`: parse `main.csv` and the
`pX.csv` files, then accumulate every violation into one report list
(the validator only reads its inputs; it produces a report and nothing
else). -/
def validate (mainRows : List (List String))
    (pxFiles : List (String × List (List String))) :
    Except String (List String) := do
  let p ← parseMain mainRows
  let conns ← pxParse pxFiles
  .ok (lumpedErrors p ++ mocErrors p ++ pxErrors conns p)

end Validator

/-! Concrete inputs used by witnesses and counterexamples. -/

/-- A concrete rational stand-in for `math.pi`. -/
def piW : ℚ := 314159 / 100000

/-- A three-node path `NA — NB — NC` of two vessels. -/
def asPath : List V12.Artery :=
  [ { ID := "A1", name := "seg1", start_node := "NA", end_node := "NB"
    , start_diameter := 1 / 100, length := 1 / 100 }
  , { ID := "A2", name := "seg2", start_node := "NB", end_node := "NC"
    , start_diameter := 1 / 100, length := 1 / 100 } ]

/-- A single vessel whose raw radius `1e-4` lies below `MIN_Radius`. -/
def asTiny : List V12.Artery :=
  [ { ID := "A1", name := "X", start_node := "N1", end_node := "N2"
    , start_diameter := 1 / 5000, length := 1 / 100 } ]

/-- A single wide, short vessel (radius `1e-2` m, length `1e-3` m). -/
def asWide : List V12.Artery :=
  [ { ID := "A1", name := "X", start_node := "N1", end_node := "N2"
    , start_diameter := 1 / 50, length := 1 / 1000 } ]

/-- A feature mapping whose `BA` record explicitly holds zero radius and
zero length. -/
def featZero : List (String × V22.JVal) :=
  [ ("1", .jobj
      [ ("BA", .jobj
          [ ("radius", .jobj [("median", .jnum 0)])
          , ("length", .jnum 0) ]) ]) ]

/-- A `main.csv` row set containing one `moc` row with two node references
and no node declarations at all. -/
def mainRows0 : List (List String) :=
  [["moc", "arterial", "X", "m1", "Y", "m2"]]

/-- The parse result of `mainRows0`. -/
def parsed0 : Validator.Parsed :=
  { declared := [], lumped := [], moc := [("X", "m1"), ("Y", "m2")] }

/-- A baseline model with one header row and one Circle-of-Willis row. -/
def base0 : V23.Model :=
  { arterial :=
      [ ["type", "ID"]
      , ["vis_f", "A56", "x", "x", "x", "1", "2", "3", "4", "0.1", "5", "m"] ]
  , main := [["m"]]
  , pfiles := [("p1", [["p"]])]
  , heart := [["h"]] }

/-- The expected rewrite of `base0` (every geometry column formatted by the
constant formatters used in the witness). -/
def base0' : V23.Model :=
  { arterial :=
      [ ["type", "ID"]
      , ["vis_f", "A56", "x", "x", "x", "q", "q", "q", "q", "q", "n", "m"] ]
  , main := [["m"]]
  , pfiles := [("p1", [["p"]])]
  , heart := [["h"]] }

/-- The inlet/outlet classification of `asPath` with inlet `NA`. -/
def resPath : V12.V12Result := { inlet := "NA", warned := false, outlets := ["NC"] }

/-- The inlet/outlet classification of the one-vessel networks with inlet
`N1`. -/
def resOut : V12.V12Result := { inlet := "N1", warned := false, outlets := ["N2"] }

/-- The Windkessel values synthesized for outlet `NC` of `asPath`. -/
def wkPath : V12.WK :=
  { Rprox := 1000000, Rdist := 1000000
  , Cval := 314159 / 3200000000000000, Lin := 10600000000 / 314159 }

/-- The Windkessel values synthesized for outlet `N2` of `asTiny`. -/
def wkTiny : V12.WK :=
  { Rprox := 2150400000000000 / 314159, Rdist := 5017600000000000 / 314159
  , Cval := 1 / 1000000000000, Lin := 4240000000000 / 314159 }

/-- The Windkessel values synthesized for outlet `N2` of `asWide`. -/
def wkWide : V12.WK :=
  { Rprox := 1000000, Rdist := 1000000
  , Cval := 314159 / 800000000000000, Lin := 25000 }

/-! Helper lemmas about the V12 graph phase. -/

namespace V12

theorem degree_foldl (as : List Artery) : ∀ (m : String → ℕ) (n : String),
    (as.foldl degreeStep m) n = m n + endpointCount as n := by
  induction as with
  | nil => intro m n; simp [endpointCount]
  | cons a t ih =>
    intro m n
    show (t.foldl degreeStep (degreeStep m a)) n = _
    rw [ih]
    simp only [degreeStep, endpointCount, List.countP_cons]
    by_cases h1 : a.start_node = n <;> by_cases h2 : a.end_node = n <;>
      simp [h1, h2, endpointCount] <;> omega

theorem degreeMap_eq_endpointCount (as : List Artery) (n : String) :
    degreeMap as n = endpointCount as n := by
  simpa [degreeMap] using degree_foldl as (fun _ => 0) n

theorem mem_nodeList {as : List Artery} {n : String} :
    n ∈ nodeList as ↔ ∃ a ∈ as, a.start_node = n ∨ a.end_node = n := by
  simp only [nodeList, List.mem_append, List.mem_map]
  constructor
  · rintro (⟨a, ha, h⟩ | ⟨a, ha, h⟩)
    · exact ⟨a, ha, Or.inl h⟩
    · exact ⟨a, ha, Or.inr h⟩
  · rintro ⟨a, ha, h | h⟩
    · exact Or.inl ⟨a, ha, h⟩
    · exact Or.inr ⟨a, ha, h⟩

theorem mem_nodeList_of_count_pos {as : List Artery} {n : String}
    (h : 0 < endpointCount as n) : n ∈ nodeList as := by
  unfold endpointCount at h
  rcases Nat.lt_or_ge 0 (as.countP (fun a => a.start_node = n)) with hs | hs
  · rcases List.countP_pos_iff.mp hs with ⟨a, ha, hp⟩
    exact mem_nodeList.mpr ⟨a, ha, Or.inl (by simpa using hp)⟩
  · have he : 0 < as.countP (fun a => a.end_node = n) := by omega
    rcases List.countP_pos_iff.mp he with ⟨a, ha, hp⟩
    exact mem_nodeList.mpr ⟨a, ha, Or.inr (by simpa using hp)⟩

theorem mem_unique_nodes {as : List Artery} {n : String} :
    n ∈ unique_nodes_1d as ↔ n ∈ nodeList as := by
  simp [unique_nodes_1d, pysorted, List.mem_insertionSort, List.mem_dedup]

theorem mem_terminal_iff {as : List Artery} {n : String} :
    n ∈ terminal_nodes as ↔ endpointCount as n = 1 := by
  unfold terminal_nodes pysorted
  rw [List.mem_insertionSort, List.mem_filter]
  simp only [List.mem_dedup, degreeMap_eq_endpointCount, decide_eq_true_eq]
  constructor
  · rintro ⟨_, h⟩; exact h
  · intro h
    exact ⟨mem_nodeList_of_count_pos (by omega), h⟩

theorem mem_outlet_iff {as : List Artery} {inlet n : String} :
    n ∈ outlet_nodes as inlet ↔ n ∈ terminal_nodes as ∧ n ≠ inlet := by
  simp [outlet_nodes, List.mem_filter]

theorem geoEntries_length (as : List Artery) (n : String) :
    (geoEntries as n).length = endpointCount as n := by
  induction as with
  | nil => simp [geoEntries, endpointCount]
  | cons a t ih =>
    have hsplit : geoEntries (a :: t) n =
        ((if a.start_node = n then [geoEntry a] else []) ++
         (if a.end_node = n then [geoEntry a] else [])) ++ geoEntries t n := by
      simp [geoEntries, List.flatMap_cons]
    rw [hsplit, List.length_append, ih]
    simp only [endpointCount, List.countP_cons]
    by_cases h1 : a.start_node = n <;> by_cases h2 : a.end_node = n <;>
      simp [h1, h2] <;> omega

theorem lexLe_total : ∀ (a b : List Char), lexLe a b = true ∨ lexLe b a = true := by
  intro a
  induction a with
  | nil => intro b; left; rfl
  | cons x xs ih =>
    intro b
    cases b with
    | nil => right; rfl
    | cons y ys =>
      simp only [lexLe]
      by_cases hxy : x.toNat < y.toNat
      · left; rw [if_pos hxy]
      · by_cases hyx : y.toNat < x.toNat
        · right; rw [if_pos hyx]
        · rw [if_neg hxy, if_neg hyx, if_neg (by omega), if_neg (by omega)]
          exact ih ys

theorem lexLe_trans : ∀ (a b c : List Char),
    lexLe a b = true → lexLe b c = true → lexLe a c = true := by
  intro a
  induction a with
  | nil => intro b c _ _; rfl
  | cons x xs ih =>
    intro b c h1 h2
    cases b with
    | nil => simp [lexLe] at h1
    | cons y ys =>
      cases c with
      | nil => simp [lexLe] at h2
      | cons z zs =>
        simp only [lexLe] at h1 h2 ⊢
        by_cases hxy : x.toNat < y.toNat
        · by_cases hyz : y.toNat < z.toNat
          · rw [if_pos (by omega)]
          · rw [if_neg hyz] at h2
            by_cases hzy : z.toNat < y.toNat
            · rw [if_pos hzy] at h2; exact absurd h2 (by simp)
            · rw [if_pos (by omega)]
        · rw [if_neg hxy] at h1
          by_cases hyx : y.toNat < x.toNat
          · rw [if_pos hyx] at h1; exact absurd h1 (by simp)
          · rw [if_neg hyx] at h1
            by_cases hyz : y.toNat < z.toNat
            · rw [if_pos (by omega)]
            · rw [if_neg hyz] at h2
              by_cases hzy : z.toNat < y.toNat
              · rw [if_pos hzy] at h2; exact absurd h2 (by simp)
              · rw [if_neg hzy] at h2
                rw [if_neg (by omega), if_neg (by omega)]
                exact ih ys zs h1 h2

end V12

/-- C3: after the graph build, the terminal-node set is exactly the set of
nodes whose degree equals 1, where the degree computed by the counting loop
equals the number of vessel endpoints referencing the node (every vessel
increments both its start and its end node by one), and the outlet set is
exactly the terminal set with the designated inlet removed. -/
theorem terminal_and_outlet_classification (as : List V12.Artery) (inlet n : String) :
    V12.degreeMap as n = V12.endpointCount as n ∧
    (n ∈ V12.terminal_nodes as ↔ V12.endpointCount as n = 1) ∧
    (n ∈ V12.outlet_nodes as inlet ↔ n ∈ V12.terminal_nodes as ∧ n ≠ inlet) :=
  ⟨V12.degreeMap_eq_endpointCount as n, V12.mem_terminal_iff, V12.mem_outlet_iff⟩

/-- Witness for C3 on the concrete path network `NA — NB — NC`. -/
theorem terminal_and_outlet_classification_witness :
    V12.degreeMap asPath "NC" = V12.endpointCount asPath "NC" ∧
    ("NC" ∈ V12.terminal_nodes asPath ↔ V12.endpointCount asPath "NC" = 1) ∧
    ("NC" ∈ V12.outlet_nodes asPath "NA" ↔
      "NC" ∈ V12.terminal_nodes asPath ∧ "NC" ≠ "NA") :=
  terminal_and_outlet_classification asPath "NA" "NC"

/-- C4: the generator raises its fatal configuration error if and only if
the designated heart inlet is not an endpoint of any vessel; when the inlet
exists, generation succeeds even if the inlet is not degree-1 — the node is
still used as the inlet, the outlet set is built from it, and only the
warning flag records that it is not terminal. -/
theorem inlet_existence_check (as : List V12.Artery) (inlet : String) :
    ((∃ e, V12.buildV12core as inlet = .error e) ↔
      ¬ ∃ a ∈ as, a.start_node = inlet ∨ a.end_node = inlet) ∧
    (∀ res, V12.buildV12core as inlet = .ok res →
      res.inlet = inlet ∧ res.outlets = V12.outlet_nodes as inlet ∧
      (res.warned = true ↔ V12.endpointCount as inlet ≠ 1)) := by
  constructor
  · by_cases h : inlet ∈ V12.unique_nodes_1d as
    · simp only [V12.buildV12core, if_pos h]
      simp only [reduceCtorEq, exists_false, false_iff, not_not]
      exact V12.mem_nodeList.mp (V12.mem_unique_nodes.mp h)
    · simp only [V12.buildV12core, if_neg h]
      constructor
      · intro _ hex
        exact h (V12.mem_unique_nodes.mpr (V12.mem_nodeList.mpr hex))
      · intro _; exact ⟨_, rfl⟩
  · intro res hres
    by_cases h : inlet ∈ V12.unique_nodes_1d as
    · simp only [V12.buildV12core, if_pos h, Except.ok.injEq] at hres
      subst hres
      refine ⟨rfl, rfl, ?_⟩
      simp only [decide_eq_true_eq]
      exact not_iff_not.mpr V12.mem_terminal_iff
    · simp only [V12.buildV12core, if_neg h, reduceCtorEq] at hres

/-- Witness for C4 on the path network with the interior node `NB` chosen as
inlet: generation succeeds, `NB` is used, and the warning flag is set. -/
theorem inlet_existence_check_witness :
    ((∃ e, V12.buildV12core asPath "NB" = .error e) ↔
      ¬ ∃ a ∈ asPath, a.start_node = "NB" ∨ a.end_node = "NB") ∧
    (∀ res, V12.buildV12core asPath "NB" = .ok res →
      res.inlet = "NB" ∧ res.outlets = V12.outlet_nodes asPath "NB" ∧
      (res.warned = true ↔ V12.endpointCount asPath "NB" ≠ 1)) :=
  inlet_existence_check asPath "NB"

/-- C10: in both branches of the basilar split of `modify_arterial` — the
proportional branch and the equal-split fallback — the two rewritten
segment lengths sum exactly to the patient-derived basilar length. -/
theorem basilar_split_sums (o56 o59 : Option ℚ) (Lba : ℚ) :
    (V23.basilarSplit o56 o59 Lba).1 + (V23.basilarSplit o56 o59 Lba).2 = Lba := by
  unfold V23.basilarSplit
  rcases o56 with _ | a
  · simp only; ring
  rcases o59 with _ | b
  · simp only; ring
  by_cases h : 0 < a + b
  · have hne : a + b ≠ 0 := ne_of_gt h
    simp only [if_pos h]
    field_simp
    ring
  · simp only [if_neg h]; ring

/-- C8 (amended): in `V12_generate_data.py` the node ordering of the emitted
artifacts is the lexicographically sorted, duplicate-free list of node
identifiers — a pure function of the input vessel list — so repeated builds
produce identical node blocks; the V20 junction-node block, by contrast, is
emitted in raw set-iteration order (see the counterexample). -/
theorem v12_node_ordering_deterministic (as : List V12.Artery) :
    List.Sorted V12.strLe (V12.unique_nodes_1d as) ∧
    (V12.unique_nodes_1d as).Nodup ∧
    List.Sorted V12.strLe (V12.terminal_nodes as) ∧
    ∀ n, n ∈ V12.unique_nodes_1d as ↔ n ∈ V12.nodeList as := by
  haveI htot : IsTotal String V12.strLe := ⟨fun a b => V12.lexLe_total a.data b.data⟩
  haveI htr : IsTrans String V12.strLe := ⟨fun a b c => V12.lexLe_trans a.data b.data c.data⟩
  refine ⟨List.sorted_insertionSort _ _, ?_, List.sorted_insertionSort _ _,
    fun n => V12.mem_unique_nodes⟩
  exact ((List.perm_insertionSort _ _).nodup_iff).mpr (List.nodup_dedup _)

/-- C8 counterexample: the iteration order of the V20 junction-node set is
not normalized before emission — two legal iteration orders of the same
set yield different artifact lines, so byte-identical output is not
guaranteed by a stable sort there. -/
theorem v20_junction_order_counterexample :
    List.Perm ["cow_n2", "cow_n1", "cow_n3", "cow_n4", "cow_n5"] V20.junction_nodes ∧
    V20.junctionLines ["cow_n2", "cow_n1", "cow_n3", "cow_n4", "cow_n5"] ≠
      V20.junctionLines V20.junction_nodes :=
  ⟨List.Perm.swap "cow_n1" "cow_n2" _, by decide⟩

namespace V12

theorem buildV12core_ok {as : List Artery} {inlet : String} {res : V12Result}
    (h : buildV12core as inlet = .ok res) :
    res.inlet = inlet ∧ res.warned = decide (inlet ∉ terminal_nodes as) ∧
    res.outlets = outlet_nodes as inlet := by
  by_cases hm : inlet ∈ unique_nodes_1d as
  · simp only [buildV12core, if_pos hm, Except.ok.injEq] at h
    subst h
    exact ⟨rfl, rfl, rfl⟩
  · simp only [buildV12core, if_neg hm, reduceCtorEq] at h

theorem compute_R_total_ok {pi r L v : ℚ} (h : compute_R_total pi r L = .ok v) :
    v = max (8 * MU * L / (pi * r ^ 4)) MIN_R := by
  unfold compute_R_total pdiv at h
  by_cases hz : pi * r ^ 4 = 0
  · rw [if_pos hz] at h
    simp only [Except.map, reduceCtorEq] at h
  · rw [if_neg hz] at h
    simp only [Except.map, Except.ok.injEq] at h
    exact h.symm

theorem windkessel_ok_spec {pi : ℚ} {as : List Artery} {n : String} {wk : WK}
    (hne : geoEntries as n ≠ []) (hw : windkessel pi as n = .ok wk) :
    wk.Rprox = max (RPROX_FRAC *
        max (8 * MU * (((geoEntries as n).map Prod.snd).sum / (geoEntries as n).length) /
          (pi * (((geoEntries as n).map Prod.fst).sum / (geoEntries as n).length) ^ 4))
          MIN_R) MIN_R ∧
    wk.Rdist = max ((1 - RPROX_FRAC) *
        max (8 * MU * (((geoEntries as n).map Prod.snd).sum / (geoEntries as n).length) /
          (pi * (((geoEntries as n).map Prod.fst).sum / (geoEntries as n).length) ^ 4))
          MIN_R) MIN_R ∧
    wk.Cval = compute_C pi (((geoEntries as n).map Prod.fst).sum / (geoEntries as n).length) ∧
    wk.Lin = compute_L pi (((geoEntries as n).map Prod.fst).sum / (geoEntries as n).length)
        (((geoEntries as n).map Prod.snd).sum / (geoEntries as n).length) * (1 / 4) := by
  have havg : avg_geo as n =
      ((((geoEntries as n).map Prod.fst).sum / (geoEntries as n).length),
       (((geoEntries as n).map Prod.snd).sum / (geoEntries as n).length)) := by
    rw [avg_geo]
    simp only [if_neg hne]
  unfold windkessel at hw
  rw [havg] at hw
  cases hR : compute_R_total pi
      (((geoEntries as n).map Prod.fst).sum / (geoEntries as n).length)
      (((geoEntries as n).map Prod.snd).sum / (geoEntries as n).length) with
  | error e =>
    rw [hR] at hw
    simp only [reduceCtorEq] at hw
  | ok Rtot =>
    rw [hR] at hw
    simp only [Except.ok.injEq] at hw
    subst hw
    rw [compute_R_total_ok hR]
    exact ⟨rfl, rfl, rfl, rfl⟩

end V12

/-- C1 (amended): for every outlet node, the synthesized total resistance is
`max(8·μ·L̄ / (π·r̄⁴), R_min)` where `r̄` and `L̄` are the arithmetic means,
over all vessel endpoints touching the node, of the per-endpoint radius and
length after each is clamped below at `MIN_Radius`/`MIN_Length` (the
clamping happens when the geometry index is built); the split values
`R_proximal = max(0.30·R_total, R_min)` and
`R_distal = max((1 − 0.30)·R_total, R_min)` are exactly the parameters of
the two resistor rows of that outlet's boundary-circuit artifact. -/
theorem outlet_windkessel_resistances (pi : ℚ) (as : List V12.Artery)
    (inlet n : String) (res : V12.V12Result) (wk : V12.WK)
    (hres : V12.buildV12core as inlet = .ok res) (hn : n ∈ res.outlets)
    (hw : V12.windkessel pi as n = .ok wk) :
    wk.Rprox = max (V12.RPROX_FRAC *
        max (8 * V12.MU * (((V12.geoEntries as n).map Prod.snd).sum / (V12.geoEntries as n).length) /
          (pi * (((V12.geoEntries as n).map Prod.fst).sum / (V12.geoEntries as n).length) ^ 4))
          V12.MIN_R) V12.MIN_R ∧
    wk.Rdist = max ((1 - V12.RPROX_FRAC) *
        max (8 * V12.MU * (((V12.geoEntries as n).map Prod.snd).sum / (V12.geoEntries as n).length) /
          (pi * (((V12.geoEntries as n).map Prod.fst).sum / (V12.geoEntries as n).length) ^ 4))
          V12.MIN_R) V12.MIN_R ∧
    (V12.pfileOf wk).edges[0]? = some ("resistor", "R0", "n1", "P1", 0, wk.Rprox) ∧
    (V12.pfileOf wk).edges[1]? = some ("resistor", "R2", "P1", "g", 0, wk.Rdist) := by
  have houtlets := (V12.buildV12core_ok hres).2.2
  rw [houtlets] at hn
  have hterm := V12.mem_outlet_iff.mp hn
  have hcount : V12.endpointCount as n = 1 := V12.mem_terminal_iff.mp hterm.1
  have hlen : (V12.geoEntries as n).length = 1 := by
    rw [V12.geoEntries_length]; exact hcount
  have hne : V12.geoEntries as n ≠ [] := by
    intro h
    rw [h] at hlen
    simp at hlen
  have hspec := V12.windkessel_ok_spec hne hw
  exact ⟨hspec.1, hspec.2.1, rfl, rfl⟩

namespace V12

theorem windkessel_eval {pi : ℚ} {as : List Artery} {n : String} {r L Rt : ℚ}
    (h1 : (avg_geo as n).1 = r) (h2 : (avg_geo as n).2 = L)
    (hR : compute_R_total pi r L = .ok Rt) :
    windkessel pi as n =
      .ok { Rprox := max (RPROX_FRAC * Rt) MIN_R
          , Rdist := max ((1 - RPROX_FRAC) * Rt) MIN_R
          , Cval := compute_C pi r
          , Lin := compute_L pi r L * (1 / 4) } := by
  unfold windkessel
  rw [h1, h2, hR]

theorem compute_R_total_eval {pi r L v : ℚ} (hz : pi * r ^ 4 ≠ 0)
    (hv : max (8 * MU * L / (pi * r ^ 4)) MIN_R = v) :
    compute_R_total pi r L = .ok v := by
  unfold compute_R_total pdiv
  rw [if_neg hz]
  simp only [Except.map, Except.ok.injEq]
  exact hv

end V12

theorem geoEntries_path_NC : V12.geoEntries asPath "NC" = [(1/200, 1/100)] := by
  have h1 : ("NA" : String) ≠ "NC" := by decide
  have h2 : ("NB" : String) ≠ "NC" := by decide
  simp only [V12.geoEntries, asPath, List.flatMap_cons, List.flatMap_nil, if_neg h1,
    if_neg h2, if_pos rfl, List.append_nil, List.nil_append, V12.geoEntry]
  norm_num [V12.MIN_Radius, V12.MIN_Length, max_def]

theorem avg_geo_path_NC : V12.avg_geo asPath "NC" = (1/200, 1/100) := by
  unfold V12.avg_geo
  rw [geoEntries_path_NC]
  norm_num

theorem windkessel_path_NC : V12.windkessel piW asPath "NC" = .ok wkPath := by
  have hR : V12.compute_R_total piW (1/200) (1/100) = .ok 1000000 := by
    refine V12.compute_R_total_eval (by norm_num [piW]) ?_
    rw [max_eq_right (by norm_num [piW, V12.MU, V12.MIN_R])]
    norm_num [V12.MIN_R]
  rw [V12.windkessel_eval (by rw [avg_geo_path_NC]) (by rw [avg_geo_path_NC]) hR]
  have e1 : max (V12.RPROX_FRAC * 1000000) V12.MIN_R = (1000000 : ℚ) := by
    rw [max_eq_right (by norm_num [V12.RPROX_FRAC, V12.MIN_R])]
    norm_num [V12.MIN_R]
  have e2 : max ((1 - V12.RPROX_FRAC) * 1000000) V12.MIN_R = (1000000 : ℚ) := by
    rw [max_eq_right (by norm_num [V12.RPROX_FRAC, V12.MIN_R])]
    norm_num [V12.MIN_R]
  have e3 : V12.compute_C piW (1/200) = 314159 / 3200000000000000 := by
    unfold V12.compute_C
    rw [if_neg (by norm_num [V12.H_FRAC])]
    rw [max_eq_left (by norm_num [piW, V12.E, V12.H_FRAC, V12.MIN_C])]
    norm_num [piW, V12.E, V12.H_FRAC]
  have e4 : V12.compute_L piW (1/200) (1/100) * (1/4) = 10600000000 / 314159 := by
    unfold V12.compute_L
    rw [if_neg (by norm_num [piW])]
    rw [max_eq_left (by norm_num [piW, V12.RHO, V12.MIN_L])]
    norm_num [piW, V12.RHO]
  rw [e1, e2, e3, e4]
  rfl

/-- Witness for C1: the amended claim instantiated on the path network, its
inlet `NA` and its single outlet `NC`. -/
theorem outlet_windkessel_resistances_witness :
    wkPath.Rprox = max (V12.RPROX_FRAC *
        max (8 * V12.MU * (((V12.geoEntries asPath "NC").map Prod.snd).sum / (V12.geoEntries asPath "NC").length) /
          (piW * (((V12.geoEntries asPath "NC").map Prod.fst).sum / (V12.geoEntries asPath "NC").length) ^ 4))
          V12.MIN_R) V12.MIN_R ∧
    wkPath.Rdist = max ((1 - V12.RPROX_FRAC) *
        max (8 * V12.MU * (((V12.geoEntries asPath "NC").map Prod.snd).sum / (V12.geoEntries asPath "NC").length) /
          (piW * (((V12.geoEntries asPath "NC").map Prod.fst).sum / (V12.geoEntries asPath "NC").length) ^ 4))
          V12.MIN_R) V12.MIN_R ∧
    (V12.pfileOf wkPath).edges[0]? = some ("resistor", "R0", "n1", "P1", 0, wkPath.Rprox) ∧
    (V12.pfileOf wkPath).edges[1]? = some ("resistor", "R2", "P1", "g", 0, wkPath.Rdist) :=
  outlet_windkessel_resistances piW asPath "NA" "NC" resPath wkPath rfl (by decide)
    windkessel_path_NC

theorem geoEntries_tiny_N2 : V12.geoEntries asTiny "N2" = [(1/4000, 1/100)] := by
  have h1 : ("N1" : String) ≠ "N2" := by decide
  simp only [V12.geoEntries, asTiny, List.flatMap_cons, List.flatMap_nil, if_neg h1,
    if_pos rfl, List.append_nil, List.nil_append, V12.geoEntry]
  norm_num [V12.MIN_Radius, V12.MIN_Length, max_def]

theorem avg_geo_tiny_N2 : V12.avg_geo asTiny "N2" = (1/4000, 1/100) := by
  unfold V12.avg_geo
  rw [geoEntries_tiny_N2]
  norm_num

theorem windkessel_tiny_N2 : V12.windkessel piW asTiny "N2" = .ok wkTiny := by
  have hR : V12.compute_R_total piW (1/4000) (1/100) = .ok (7168000000000000/314159) := by
    refine V12.compute_R_total_eval (by norm_num [piW]) ?_
    rw [max_eq_left (by norm_num [piW, V12.MU, V12.MIN_R])]
    norm_num [piW, V12.MU]
  rw [V12.windkessel_eval (by rw [avg_geo_tiny_N2]) (by rw [avg_geo_tiny_N2]) hR]
  have e1 : max (V12.RPROX_FRAC * (7168000000000000/314159)) V12.MIN_R =
      (2150400000000000/314159 : ℚ) := by
    rw [max_eq_left (by norm_num [V12.RPROX_FRAC, V12.MIN_R])]
    norm_num [V12.RPROX_FRAC]
  have e2 : max ((1 - V12.RPROX_FRAC) * (7168000000000000/314159)) V12.MIN_R =
      (5017600000000000/314159 : ℚ) := by
    rw [max_eq_left (by norm_num [V12.RPROX_FRAC, V12.MIN_R])]
    norm_num [V12.RPROX_FRAC]
  have e3 : V12.compute_C piW (1/4000) = 1 / 1000000000000 := by
    unfold V12.compute_C
    rw [if_neg (by norm_num [V12.H_FRAC])]
    rw [max_eq_right (by norm_num [piW, V12.E, V12.H_FRAC, V12.MIN_C])]
    norm_num [V12.MIN_C]
  have e4 : V12.compute_L piW (1/4000) (1/100) * (1/4) = 4240000000000 / 314159 := by
    unfold V12.compute_L
    rw [if_neg (by norm_num [piW])]
    rw [max_eq_left (by norm_num [piW, V12.RHO, V12.MIN_L])]
    norm_num [piW, V12.RHO]
  rw [e1, e2, e3, e4]
  rfl

/-- C1 counterexample: in `asTiny` the sole vessel touching the outlet `N2`
has raw radius `(1/5000)·(1/2) = 1e-4 < MIN_Radius` and length `1/100`, so
the claim's formula evaluated at the raw arithmetic mean radius/length
(`r = 1e-4`, `L = 1/100`) disagrees with the proximal resistance the code
actually synthesizes and writes — the code averages the clamped
per-endpoint values. -/
theorem outlet_windkessel_raw_mean_counterexample :
    V12.buildV12core asTiny "N1" = .ok resOut ∧
    "N2" ∈ resOut.outlets ∧
    V12.windkessel piW asTiny "N2" = .ok wkTiny ∧
    wkTiny.Rprox ≠ max (V12.RPROX_FRAC *
      max (8 * V12.MU * (1/100) / (piW * ((1/5000) * (1/2)) ^ 4)) V12.MIN_R) V12.MIN_R := by
  refine ⟨rfl, by decide, windkessel_tiny_N2, ?_⟩
  have h1 : max (8 * V12.MU * (1/100) / (piW * ((1/5000) * (1/2)) ^ 4)) V12.MIN_R =
      (280000000000000000/314159 : ℚ) := by
    rw [max_eq_left (by norm_num [piW, V12.MU, V12.MIN_R])]
    norm_num [piW, V12.MU]
  rw [h1]
  have h2 : max (V12.RPROX_FRAC * (280000000000000000/314159)) V12.MIN_R =
      (84000000000000000/314159 : ℚ) := by
    rw [max_eq_left (by norm_num [V12.RPROX_FRAC, V12.MIN_R])]
    norm_num [V12.RPROX_FRAC]
  rw [h2]
  norm_num [wkTiny]

/-- C2 (amended): for every radius `r ≥ 0` and any length, `compute_C` and
`compute_L` are total and clamped (`≥ C_min`, `≥ L_min`, with equality at
`r = 0`); `compute_R_total` is total and `≥ R_min` for every `r > 0` but
raises `ZeroDivisionError` at `r = 0`; and the inertance value written to
the circuit artifact is `compute_L · 0.25` and hence only `≥ L_min/4`, not
necessarily `≥ L_min`. -/
theorem formula_clamping (pi r L : ℚ) (hpi : 0 < pi) (hr : 0 ≤ r) :
    (0 < r → ∃ v, V12.compute_R_total pi r L = .ok v ∧ V12.MIN_R ≤ v) ∧
    (r = 0 → V12.compute_R_total pi r L =
      .error "ZeroDivisionError: float division by zero") ∧
    V12.MIN_C ≤ V12.compute_C pi r ∧
    (r = 0 → V12.compute_C pi r = V12.MIN_C) ∧
    V12.MIN_L ≤ V12.compute_L pi r L ∧
    (r = 0 → V12.compute_L pi r L = V12.MIN_L) ∧
    V12.MIN_L * (1 / 4) ≤ V12.compute_L pi r L * (1 / 4) := by
  have hL : V12.MIN_L ≤ V12.compute_L pi r L := by
    unfold V12.compute_L
    by_cases hA : pi * r ^ 2 ≤ 0
    · rw [if_pos hA]
    · rw [if_neg hA]
      exact le_max_right _ _
  refine ⟨?_, ?_, ?_, ?_, hL, ?_, ?_⟩
  · intro hr'
    unfold V12.compute_R_total V12.pdiv
    have hz : pi * r ^ 4 ≠ 0 := ne_of_gt (mul_pos hpi (pow_pos hr' 4))
    rw [if_neg hz]
    exact ⟨_, rfl, le_max_right _ _⟩
  · intro h0
    subst h0
    unfold V12.compute_R_total V12.pdiv
    rw [if_pos (by ring)]
    rfl
  · unfold V12.compute_C
    by_cases hh : V12.H_FRAC * r ≤ 0
    · rw [if_pos hh]
    · rw [if_neg hh]
      exact le_max_right _ _
  · intro h0
    subst h0
    unfold V12.compute_C
    rw [if_pos (by norm_num)]
  · intro h0
    subst h0
    unfold V12.compute_L
    rw [if_pos (by norm_num)]
  · exact mul_le_mul_of_nonneg_right hL (by norm_num)

/-- Witness for C2's amended claim at `pi = piW`, `r = 0`, `L = 1`. -/
theorem formula_clamping_witness :
    (0 : ℚ) < piW ∧ (0 : ℚ) ≤ 0 ∧
    ((0 < (0:ℚ) → ∃ v, V12.compute_R_total piW 0 1 = .ok v ∧ V12.MIN_R ≤ v) ∧
     ((0:ℚ) = 0 → V12.compute_R_total piW 0 1 =
       .error "ZeroDivisionError: float division by zero") ∧
     V12.MIN_C ≤ V12.compute_C piW 0 ∧
     ((0:ℚ) = 0 → V12.compute_C piW 0 = V12.MIN_C) ∧
     V12.MIN_L ≤ V12.compute_L piW 0 1 ∧
     ((0:ℚ) = 0 → V12.compute_L piW 0 1 = V12.MIN_L) ∧
     V12.MIN_L * (1 / 4) ≤ V12.compute_L piW 0 1 * (1 / 4)) :=
  ⟨by norm_num [piW], le_refl 0,
   formula_clamping piW 0 1 (by norm_num [piW]) (le_refl 0)⟩

theorem geoEntries_wide_N2 : V12.geoEntries asWide "N2" = [(1/100, 1/1000)] := by
  have h1 : ("N1" : String) ≠ "N2" := by decide
  simp only [V12.geoEntries, asWide, List.flatMap_cons, List.flatMap_nil, if_neg h1,
    if_pos rfl, List.append_nil, List.nil_append, V12.geoEntry]
  norm_num [V12.MIN_Radius, V12.MIN_Length, max_def]

theorem avg_geo_wide_N2 : V12.avg_geo asWide "N2" = (1/100, 1/1000) := by
  unfold V12.avg_geo
  rw [geoEntries_wide_N2]
  norm_num

theorem windkessel_wide_N2 : V12.windkessel piW asWide "N2" = .ok wkWide := by
  have hR : V12.compute_R_total piW (1/100) (1/1000) = .ok 1000000 := by
    refine V12.compute_R_total_eval (by norm_num [piW]) ?_
    rw [max_eq_right (by norm_num [piW, V12.MU, V12.MIN_R])]
    norm_num [V12.MIN_R]
  rw [V12.windkessel_eval (by rw [avg_geo_wide_N2]) (by rw [avg_geo_wide_N2]) hR]
  have e1 : max (V12.RPROX_FRAC * 1000000) V12.MIN_R = (1000000 : ℚ) := by
    rw [max_eq_right (by norm_num [V12.RPROX_FRAC, V12.MIN_R])]
    norm_num [V12.MIN_R]
  have e2 : max ((1 - V12.RPROX_FRAC) * 1000000) V12.MIN_R = (1000000 : ℚ) := by
    rw [max_eq_right (by norm_num [V12.RPROX_FRAC, V12.MIN_R])]
    norm_num [V12.MIN_R]
  have e3 : V12.compute_C piW (1/100) = 314159 / 800000000000000 := by
    unfold V12.compute_C
    rw [if_neg (by norm_num [V12.H_FRAC])]
    rw [max_eq_left (by norm_num [piW, V12.E, V12.H_FRAC, V12.MIN_C])]
    norm_num [piW, V12.E, V12.H_FRAC]
  have e4 : V12.compute_L piW (1/100) (1/1000) * (1/4) = 25000 := by
    unfold V12.compute_L
    rw [if_neg (by norm_num [piW])]
    rw [max_eq_right (by norm_num [piW, V12.RHO, V12.MIN_L])]
    norm_num [V12.MIN_L]
  rw [e1, e2, e3, e4]
  rfl

/-- C2 counterexample: `compute_R_total` raises `ZeroDivisionError` at
radius `0` instead of clamping, and on the network `asWide` the inertance
value written to outlet `N2`'s artifact is `25000 < L_min` (the damping
factor `0.25` is applied after the clamp). -/
theorem formula_totality_counterexample :
    V12.compute_R_total piW 0 1 =
      .error "ZeroDivisionError: float division by zero" ∧
    V12.buildV12core asWide "N1" = .ok resOut ∧
    "N2" ∈ resOut.outlets ∧
    V12.windkessel piW asWide "N2" = .ok wkWide ∧
    (V12.pfileOf wkWide).edges[3]? = some ("inductor", "L1", "P1", "g", 0, wkWide.Lin) ∧
    wkWide.Lin < V12.MIN_L := by
  refine ⟨?_, rfl, by decide, windkessel_wide_N2, rfl, by norm_num [wkWide, V12.MIN_L]⟩
  unfold V12.compute_R_total V12.pdiv
  rw [if_pos (by ring)]
  rfl


namespace V11

open V12 (Artery)

theorem foldl_largest_eq (t : List Artery) : ∀ (s : String) (d : ℚ),
    t.foldl (fun (acc : Option String × ℚ) a =>
      if a.start_diameter > acc.2 then (some a.start_node, a.start_diameter) else acc)
      (some s, d) =
    (firstMax t).elim (some s, d)
      (fun sm => if d < sm.2 then (some sm.1, sm.2) else (some s, d)) := by
  induction t with
  | nil => intro s d; rfl
  | cons a t ih =>
    intro s d
    simp only [List.foldl_cons]
    by_cases hda : d < a.start_diameter
    · rw [if_pos hda, ih]
      cases hfm : firstMax t with
      | none =>
        simp only [firstMax, hfm, Option.elim_none, Option.elim_some]
        rw [if_pos hda]
      | some sm =>
        simp only [firstMax, hfm, Option.elim_none, Option.elim_some]
        by_cases h1 : sm.2 ≤ a.start_diameter
        · rw [if_pos h1]
          simp only [Option.elim_some]
          rw [if_neg (not_lt.mpr h1), if_pos hda]
        · have h1' : a.start_diameter < sm.2 := not_le.mp h1
          rw [if_neg h1]
          simp only [Option.elim_some]
          rw [if_pos h1', if_pos (lt_trans hda h1')]
    · rw [if_neg hda, ih]
      have hda' : a.start_diameter ≤ d := not_lt.mp hda
      cases hfm : firstMax t with
      | none =>
        simp only [firstMax, hfm, Option.elim_none, Option.elim_some]
        rw [if_neg hda]
      | some sm =>
        simp only [firstMax, hfm, Option.elim_none, Option.elim_some]
        by_cases h1 : sm.2 ≤ a.start_diameter
        · rw [if_pos h1]
          simp only [Option.elim_some]
          rw [if_neg (not_lt.mpr (le_trans h1 hda')), if_neg hda]
        · rw [if_neg h1]
          simp only [Option.elim_some]

theorem fallbackLargest_eq_firstMax {as : List Artery}
    (h : ∀ a ∈ as, 0 ≤ a.start_diameter) :
    fallbackLargest as = (firstMax as).map Prod.fst := by
  cases as with
  | nil => rfl
  | cons a t =>
    unfold fallbackLargest
    simp only [List.foldl_cons]
    have h0 : (-1 : ℚ) < a.start_diameter :=
      lt_of_lt_of_le (by norm_num) (h a (by simp))
    rw [if_pos h0, foldl_largest_eq]
    cases hfm : firstMax t with
    | none =>
      simp [firstMax, hfm]
    | some sm =>
      simp only [firstMax, hfm, Option.elim_some]
      by_cases h1 : sm.2 ≤ a.start_diameter
      · rw [if_pos h1]
        rw [if_neg (not_lt.mpr h1)]
        rfl
      · have h1' : a.start_diameter < sm.2 := not_le.mp h1
        rw [if_neg h1]
        rw [if_pos h1']
        rfl

theorem firstMax_isMax : ∀ {as : List Artery} {sm : String × ℚ},
    firstMax as = some sm → ∀ b ∈ as, b.start_diameter ≤ sm.2 := by
  intro as
  induction as with
  | nil => intro sm h; simp [firstMax] at h
  | cons a t ih =>
    intro sm h b hb
    rcases List.mem_cons.mp hb with hba | hbt
    · subst hba
      cases hfm : firstMax t with
      | none =>
        simp only [firstMax, hfm, Option.elim_none, Option.some.injEq] at h
        rw [← h]
      | some sm' =>
        simp only [firstMax, hfm, Option.elim_some] at h
        by_cases h1 : sm'.2 ≤ b.start_diameter
        · rw [if_pos h1, Option.some.injEq] at h
          rw [← h]
        · rw [if_neg h1, Option.some.injEq] at h
          rw [← h]
          exact le_of_lt (not_le.mp h1)
    · cases hfm : firstMax t with
      | none =>
        rcases List.exists_mem_of_ne_nil t (by rintro rfl; simp at hbt) with ⟨c, hc⟩
        cases t with
        | nil => simp at hbt
        | cons c u =>
          simp only [firstMax] at hfm
          cases hu : firstMax u <;> simp only [hu, Option.elim_none, Option.elim_some] at hfm
          · exact absurd hfm (by simp)
          · split at hfm <;> exact absurd hfm (by simp)
      | some sm' =>
        have hb' : b.start_diameter ≤ sm'.2 := ih hfm b hbt
        simp only [firstMax, hfm, Option.elim_some] at h
        by_cases h1 : sm'.2 ≤ a.start_diameter
        · rw [if_pos h1, Option.some.injEq] at h
          rw [← h]
          exact le_trans hb' h1
        · rw [if_neg h1, Option.some.injEq] at h
          rw [← h]
          exact hb'

theorem firstMax_split : ∀ {as : List Artery} {sm : String × ℚ},
    firstMax as = some sm →
    ∃ l r aa, as = l ++ aa :: r ∧ aa.start_node = sm.1 ∧ aa.start_diameter = sm.2 ∧
      ∀ b ∈ l, b.start_diameter < sm.2 := by
  intro as
  induction as with
  | nil => intro sm h; simp [firstMax] at h
  | cons a t ih =>
    intro sm h
    cases hfm : firstMax t with
    | none =>
      simp only [firstMax, hfm, Option.elim_none, Option.some.injEq] at h
      exact ⟨[], t, a, rfl, by rw [← h], by rw [← h], by simp⟩
    | some sm' =>
      simp only [firstMax, hfm, Option.elim_some] at h
      by_cases h1 : sm'.2 ≤ a.start_diameter
      · rw [if_pos h1, Option.some.injEq] at h
        exact ⟨[], t, a, rfl, by rw [← h], by rw [← h], by simp⟩
      · rw [if_neg h1, Option.some.injEq] at h
        subst h
        rcases ih hfm with ⟨l, r, aa, hsplit, hs, hd, hl⟩
        refine ⟨a :: l, r, aa, by rw [hsplit]; rfl, hs, hd, ?_⟩
        intro b hb
        rcases List.mem_cons.mp hb with hba | hbl
        · subst hba
          exact not_le.mp h1
        · exact hl b hbl

end V11

namespace V11

open V12 (Artery)

theorem firstMax_cons_ne_none (a : Artery) (t : List Artery) :
    firstMax (a :: t) ≠ none := by
  cases hfm : firstMax t <;>
    simp only [firstMax, hfm, Option.elim_none, Option.elim_some]
  · simp
  · split <;> simp

theorem find_argmax_eq {as : List Artery} {sm : String × ℚ}
    (h : firstMax as = some sm) :
    (as.find? (fun a => as.all (fun b => b.start_diameter ≤ a.start_diameter))).map
      (·.start_node) = some sm.1 := by
  have hmax : ∀ b ∈ as, b.start_diameter ≤ sm.2 := firstMax_isMax h
  rcases firstMax_split h with ⟨l, r, aa, hsplit, hs, hd, hl⟩
  subst hsplit
  have hpa : ((l ++ aa :: r).all
      (fun b => b.start_diameter ≤ aa.start_diameter)) = true := by
    rw [List.all_eq_true]
    intro b hb
    rw [decide_eq_true_eq, hd]
    exact hmax b hb
  have hpl : ∀ b ∈ l,
      ¬ ((l ++ aa :: r).all (fun c => c.start_diameter ≤ b.start_diameter) = true) := by
    intro b hb hpb
    rw [List.all_eq_true] at hpb
    have haa_in : aa ∈ l ++ aa :: r := List.mem_append_right _ (List.mem_cons_self _ _)
    have h2 : aa.start_diameter ≤ b.start_diameter := by
      have := hpb aa haa_in
      rwa [decide_eq_true_eq] at this
    rw [hd] at h2
    exact absurd (hl b hb) (not_lt.mpr h2)
  rw [List.find?_append]
  have hfl : l.find? (fun a => (l ++ aa :: r).all
      (fun b => b.start_diameter ≤ a.start_diameter)) = none :=
    List.find?_eq_none.mpr hpl
  rw [hfl, Option.none_or,
    @List.find?_cons_of_pos _
      (fun a => (l ++ aa :: r).all fun b => decide (b.start_diameter ≤ a.start_diameter))
      aa r hpa]
  simp only [Option.map_some']
  rw [hs]

end V11

/-- C5: automatic inlet selection in `V11_generate.py` follows the ordered
first-match-wins policy over the vessel list — first the start node of a
vessel matching the extracranial/common-carotid keyword patterns, next one
matching `"ica"`, next one matching the vertebral patterns, and otherwise
(explicit fallback) the start node of the first vessel with the largest
starting diameter; the selection is a pure function of the vessel list, so
identical input always yields the same inlet.  The hypothesis reflects the
data-model invariant that vessel diameters are nonnegative. -/
theorem inlet_selection_policy (as : List V12.Artery)
    (hpos : ∀ a ∈ as, 0 ≤ a.start_diameter) :
    V11.detect_inlet_node as = V11.inletPolicy as := by
  unfold V11.detect_inlet_node V11.inletPolicy
  cases h1 : as.find? (fun a => V11.name_contains a V11.extracranial_keywords) with
  | some a => rfl
  | none =>
    cases h2 : as.find? (fun a => V11.name_contains a ["ica"]) with
    | some a => rfl
    | none =>
      cases h3 : as.find? (fun a => V11.name_contains a ["va", "vertebral"]) with
      | some a => rfl
      | none =>
        rw [V11.fallbackLargest_eq_firstMax hpos]
        cases hfm : V11.firstMax as with
        | none =>
          cases as with
          | nil => rfl
          | cons a t => exact absurd hfm (V11.firstMax_cons_ne_none a t)
        | some sm =>
          rw [Option.map_some']
          exact (V11.find_argmax_eq hfm).symm

/-- Witness for C5 on the path network (no keyword matches, so the
largest-diameter fallback decides; both code and policy select `NA`). -/
theorem inlet_selection_policy_witness :
    V11.detect_inlet_node asPath = V11.inletPolicy asPath :=
  inlet_selection_policy asPath (by
    intro a ha
    simp only [asPath, List.mem_cons, List.not_mem_nil, or_false] at ha
    rcases ha with rfl | rfl <;> norm_num)

/-- C6 (amended): the geometry lookup and the per-node averaging are total
and never fail: a missing label or missing segment makes `get_geom` return
the fixed conservative default `(0.0015 m, 0.01 m)`, and a node absent from
the geometry index makes `avg_geo` return the fixed fallback
`(0.001 m, 0.02 m)`; all of these fallback values are nonzero.  (A
well-formed record that explicitly stores a zero radius or length is,
however, passed through unchanged — see the counterexample.) -/
theorem geometry_fallback_defaults (feat : List (String × V22.JVal)) (label : Int)
    (segname : String) (as : List V12.Artery) (n : String) :
    (V22.jlookup feat (toString label) = none →
      V22.get_geom feat label segname = V22.geomDefault) ∧
    (∀ fs, V22.jlookup feat (toString label) = some (V22.JVal.jobj fs) → fs ≠ [] →
      V22.jlookup fs segname = none →
      V22.get_geom feat label segname = V22.geomDefault) ∧
    V22.geomDefault.1 ≠ 0 ∧ V22.geomDefault.2 ≠ 0 ∧
    (V12.geoEntries as n = [] → V12.avg_geo as n = (1/1000, 1/50)) ∧
    ((1/1000 : ℚ) ≠ 0 ∧ (1/50 : ℚ) ≠ 0) := by
  refine ⟨?_, ?_, ?_, ?_, ?_, ?_⟩
  · intro h
    unfold V22.get_geom
    rw [h]
  · intro fs hfs hne hseg
    unfold V22.get_geom
    rw [hfs]
    have hfalsy : V22.jFalsy (V22.JVal.jobj fs) = false := by
      simp [V22.jFalsy, hne]
    simp only [hfalsy, Bool.false_eq_true, if_false]
    rw [hseg]
  · norm_num [V22.geomDefault]
  · norm_num [V22.geomDefault]
  · intro h
    unfold V12.avg_geo
    rw [h]
    rfl
  · norm_num

/-- Witness for C6 at concrete inputs (empty feature mapping, and a node
with no incident vessels). -/
theorem geometry_fallback_defaults_witness :
    (V22.jlookup [] (toString (1:Int)) = none →
      V22.get_geom [] 1 "BA" = V22.geomDefault) ∧
    (∀ fs, V22.jlookup [] (toString (1:Int)) = some (V22.JVal.jobj fs) → fs ≠ [] →
      V22.jlookup fs "BA" = none →
      V22.get_geom [] 1 "BA" = V22.geomDefault) ∧
    V22.geomDefault.1 ≠ 0 ∧ V22.geomDefault.2 ≠ 0 ∧
    (V12.geoEntries [] "X" = [] → V12.avg_geo [] "X" = (1/1000, 1/50)) ∧
    ((1/1000 : ℚ) ≠ 0 ∧ (1/50 : ℚ) ≠ 0) :=
  geometry_fallback_defaults [] 1 "BA" [] "X"

/-- C6 counterexample: a well-formed feature record holding an explicit zero
radius and zero length is returned as `(0, 0)` — zero geometry is
propagated when the data itself is zero, so "in no case is a zero geometry
propagated" fails. -/
theorem geometry_zero_propagation_counterexample :
    V22.get_geom featZero 1 "BA" = (0, 0) := by
  have h : V22.get_geom featZero 1 "BA" = ((0:ℚ)/1000, (0:ℚ)/1000) := rfl
  rw [h]
  norm_num

/-- C7 (amended): provided every artifact row is well-formed (each `node`
row carries a name, each `lumped` row at least four cells, each circuit
file nonempty — otherwise parsing raises, see the counterexample), the
validator runs to completion, only reads its inputs, and returns one report
enumerating every violation found: every `moc` reference to an undeclared
node, every `lumped` reference to an undeclared node, and every
`lumped` main/model node mismatch each contribute their message to the
report — in particular two independent undeclared-node references are both
reported. -/
theorem validator_report_completeness (mainRows : List (List String))
    (pxFiles : List (String × List (List String)))
    (p : Validator.Parsed) (conns : List (String × String))
    (h1 : Validator.parseMain mainRows = .ok p)
    (h2 : Validator.pxParse pxFiles = .ok conns) :
    Validator.validate mainRows pxFiles =
      .ok (Validator.lumpedErrors p ++ Validator.mocErrors p ++
           Validator.pxErrors conns p) ∧
    (∀ t ∈ p.moc, t.1 ∉ p.declared →
      Validator.mocUndeclaredMsg t.1 t.2 ∈
        Validator.lumpedErrors p ++ Validator.mocErrors p ++
        Validator.pxErrors conns p) ∧
    (∀ t ∈ p.lumped, t.2.1 ∉ p.declared →
      Validator.lumpedUndeclaredMsg t.1 t.2.1 ∈
        Validator.lumpedErrors p ++ Validator.mocErrors p ++
        Validator.pxErrors conns p) ∧
    (∀ t ∈ p.lumped, t.2.2 ≠ t.2.1 →
      Validator.lumpedMismatchMsg t.1 t.2.1 t.2.2 ∈
        Validator.lumpedErrors p ++ Validator.mocErrors p ++
        Validator.pxErrors conns p) := by
  refine ⟨?_, ?_, ?_, ?_⟩
  · unfold Validator.validate
    rw [h1, h2]
    rfl
  · intro t ht hnd
    refine List.mem_append_left _ (List.mem_append_right _ ?_)
    unfold Validator.mocErrors
    rw [List.mem_flatMap]
    exact ⟨t, ht, by rw [if_neg hnd]; exact List.mem_singleton.mpr rfl⟩
  · intro t ht hnd
    refine List.mem_append_left _ (List.mem_append_left _ ?_)
    unfold Validator.lumpedErrors
    rw [List.mem_flatMap]
    refine ⟨t, ht, List.mem_append_right _ ?_⟩
    rw [if_neg hnd]
    exact List.mem_singleton.mpr rfl
  · intro t ht hmm
    refine List.mem_append_left _ (List.mem_append_left _ ?_)
    unfold Validator.lumpedErrors
    rw [List.mem_flatMap]
    refine ⟨t, ht, List.mem_append_left _ ?_⟩
    rw [if_pos hmm]
    exact List.mem_singleton.mpr rfl

/-- Witness for C7: a `main.csv` with one `moc` row referencing two
undeclared nodes `X` and `Y`; the report contains both messages. -/
theorem validator_report_completeness_witness :
    Validator.parseMain mainRows0 = .ok parsed0 ∧
    Validator.pxParse [] = .ok [] ∧
    Validator.mocUndeclaredMsg "X" "m1" ∈
      Validator.lumpedErrors parsed0 ++ Validator.mocErrors parsed0 ++
      Validator.pxErrors [] parsed0 ∧
    Validator.mocUndeclaredMsg "Y" "m2" ∈
      Validator.lumpedErrors parsed0 ++ Validator.mocErrors parsed0 ++
      Validator.pxErrors [] parsed0 := by
  have h1 : Validator.parseMain mainRows0 = .ok parsed0 := rfl
  have h2 : Validator.pxParse [] = .ok ([] : List (String × String)) := rfl
  refine ⟨h1, h2, ?_, ?_⟩
  · exact (validator_report_completeness mainRows0 [] parsed0 [] h1 h2).2.1
      ("X", "m1") (by decide) (by decide)
  · exact (validator_report_completeness mainRows0 [] parsed0 [] h1 h2).2.1
      ("Y", "m2") (by decide) (by decide)

/-- C7 counterexample: on a malformed artifact — a `lumped` row with fewer
than four cells — the validator raises (`ValueError` from tuple unpacking)
instead of completing with a report, so it does not run to completion for
arbitrary artifact sets. -/
theorem validator_raises_counterexample :
    Validator.validate [["lumped", "p1"]] [] =
      .error "ValueError: not enough values to unpack" := rfl

namespace V23

theorem mapM_except_ok_length {α β : Type} (f : α → Except String β) :
    ∀ (l : List α) (l' : List β), l.mapM f = .ok l' → l'.length = l.length := by
  intro l
  induction l with
  | nil =>
    intro l' h
    rw [List.mapM_nil] at h
    cases h
    rfl
  | cons a t ih =>
    intro l' h
    rw [List.mapM_cons] at h
    cases hfa : f a with
    | error e =>
      rw [hfa] at h
      simp only [bind, Except.bind, reduceCtorEq] at h
    | ok x =>
      rw [hfa] at h
      cases hmt : t.mapM f with
      | error e =>
        rw [hmt] at h
        simp only [bind, Except.bind, reduceCtorEq] at h
      | ok xs =>
        rw [hmt] at h
        simp only [bind, Except.bind, pure, Except.pure, Except.ok.injEq] at h
        subst h
        simp [ih xs hmt]

theorem mapM_except_ok_get {α β : Type} (f : α → Except String β) :
    ∀ (l : List α) (l' : List β), l.mapM f = .ok l' →
      ∀ (i : ℕ) (x : α), l[i]? = some x → ∃ y, l'[i]? = some y ∧ f x = .ok y := by
  intro l
  induction l with
  | nil =>
    intro l' h i x hx
    simp at hx
  | cons a t ih =>
    intro l' h i x hx
    rw [List.mapM_cons] at h
    cases hfa : f a with
    | error e =>
      rw [hfa] at h
      simp only [bind, Except.bind, reduceCtorEq] at h
    | ok y =>
      rw [hfa] at h
      cases hmt : t.mapM f with
      | error e =>
        rw [hmt] at h
        simp only [bind, Except.bind, reduceCtorEq] at h
      | ok ys =>
        rw [hmt] at h
        simp only [bind, Except.bind, pure, Except.pure, Except.ok.injEq] at h
        subst h
        cases i with
        | zero =>
          simp only [List.getElem?_cons_zero, Option.some.injEq] at hx
          subst hx
          exact ⟨y, by simp, hfa⟩
        | succ i =>
          simp only [List.getElem?_cons_succ] at hx ⊢
          exact ih ys hmt i x hx

theorem modifyRow_frame {feat : List (String × V22.JVal)} {fmtQ : ℚ → String}
    {fmtN : Int → String} {L56 L59 rba : ℚ} {r r' : Row}
    (h : modifyRow feat fmtQ fmtN L56 L59 rba r = .ok r') :
    ((r[0]? ≠ some "vis_f" ∨ ∀ vid, r[1]? = some vid → cowLookup vid = none) → r' = r) ∧
    (∀ j : ℕ, j < 5 ∨ 10 < j → r'[j]? = r[j]?) := by
  cases r with
  | nil =>
    simp only [modifyRow, Except.ok.injEq] at h
    subst h
    exact ⟨fun _ => rfl, fun _ _ => rfl⟩
  | cons t rest =>
    by_cases ht : t = "vis_f"
    · subst ht
      simp only [modifyRow, if_neg (by simp : ¬ ("vis_f" : String) ≠ "vis_f")] at h
      cases hh : rest.head? with
      | none =>
        rw [hh] at h
        simp only [reduceCtorEq] at h
      | some vid =>
        rw [hh] at h
        dsimp only at h
        cases hcl : cowLookup vid with
        | none =>
          rw [hcl] at h
          dsimp only at h
          simp only [Except.ok.injEq] at h
          subst h
          exact ⟨fun _ => rfl, fun _ _ => rfl⟩
        | some ls =>
          rw [hcl] at h
          dsimp only at h
          by_cases hlen : ("vis_f" :: rest : List String).length < 11
          · rw [if_pos hlen] at h
            simp only [reduceCtorEq] at h
          · rw [if_neg hlen] at h
            simp only [Except.ok.injEq] at h
            subst h
            constructor
            · intro hant
              exfalso
              rcases hant with h0 | hall
              · exact h0 (by simp)
              · have h1 : (("vis_f" :: rest : List String))[1]? = some vid := by
                  simpa [List.getElem?_cons_succ, ← List.head?_eq_getElem?] using hh
                rw [hall vid h1] at hcl
                exact absurd hcl (by simp)
            · intro j hj
              rw [List.getElem?_set_ne (by omega), List.getElem?_set_ne (by omega),
                  List.getElem?_set_ne (by omega), List.getElem?_set_ne (by omega),
                  List.getElem?_set_ne (by omega), List.getElem?_set_ne (by omega)]
    · simp only [modifyRow, if_pos ht] at h
      simp only [Except.ok.injEq] at h
      subst h
      exact ⟨fun _ => rfl, fun _ _ => rfl⟩

end V23

/-- C9: the patient-specific re-geometry never mutates the baseline model —
the V23 run yields a new model agreeing with the baseline on the coupling
table, the circuit files and the heart file; in the rewritten arterial
table the header row and every row that is not a `vis_f` row with a
Circle-of-Willis vessel id are unchanged, and even in a modified row every
field outside the six geometry columns 5–10 is unchanged. -/
theorem patient_regeometry_frame (feat : List (String × V22.JVal))
    (parseF : String → Option ℚ) (fmtQ : ℚ → String) (fmtN : Int → String)
    (base m' : V23.Model)
    (h : V23.v23Run feat parseF fmtQ fmtN base = .ok m') :
    m'.main = base.main ∧ m'.pfiles = base.pfiles ∧ m'.heart = base.heart ∧
    m'.arterial.length = base.arterial.length ∧
    m'.arterial[0]? = base.arterial[0]? ∧
    (∀ (i : ℕ) (r r' : V23.Row),
      base.arterial[i+1]? = some r → m'.arterial[i+1]? = some r' →
      ((r[0]? ≠ some "vis_f" ∨ ∀ vid, r[1]? = some vid → V23.cowLookup vid = none) →
        r' = r) ∧
      (∀ j : ℕ, j < 5 ∨ 10 < j → r'[j]? = r[j]?)) := by
  unfold V23.v23Run at h
  cases hma : V23.modify_arterial feat parseF fmtQ fmtN base.arterial with
  | error e =>
    rw [hma] at h
    simp only [Except.map, reduceCtorEq] at h
  | ok a' =>
    rw [hma] at h
    simp only [Except.map, Except.ok.injEq] at h
    subst h
    unfold V23.modify_arterial at hma
    cases hart : base.arterial with
    | nil =>
      rw [hart] at hma
      simp only [reduceCtorEq] at hma
    | cons header body =>
      rw [hart] at hma
      dsimp only at hma
      cases hcb : V23.collectBA parseF body with
      | error e =>
        rw [hcb] at hma
        simp only [reduceCtorEq] at hma
      | ok o =>
        rw [hcb] at hma
        dsimp only at hma
        cases hmm : body.mapM (V23.modifyRow feat fmtQ fmtN
            (V23.basilarSplit o.1 o.2 (V22.get_geom feat 1 "BA").2).1
            (V23.basilarSplit o.1 o.2 (V22.get_geom feat 1 "BA").2).2
            (V22.get_geom feat 1 "BA").1) with
        | error e =>
          rw [hmm] at hma
          simp only [reduceCtorEq] at hma
        | ok body' =>
          rw [hmm] at hma
          simp only [Except.ok.injEq] at hma
          subst hma
          refine ⟨rfl, rfl, rfl, ?_, by simp, ?_⟩
          · simp [V23.mapM_except_ok_length _ body body' hmm]
          · intro i r r' hr hr'
            rw [List.getElem?_cons_succ] at hr hr'
            rcases V23.mapM_except_ok_get _ body body' hmm i r hr with ⟨y, hy, hfy⟩
            rw [hy, Option.some.injEq] at hr'
            subst hr'
            exact V23.modifyRow_frame hfy

/-- Witness for C9 on a two-row baseline whose second row is the
Circle-of-Willis vessel `A56`: the coupling table, circuit files and heart
file of the result equal the baseline's and the row frame holds. -/
theorem patient_regeometry_frame_witness :
    V23.v23Run [] (fun _ => none) (fun _ => "q") (fun _ => "n") base0 = .ok base0' ∧
    base0'.main = base0.main ∧ base0'.pfiles = base0.pfiles ∧
    base0'.heart = base0.heart ∧
    base0'.arterial.length = base0.arterial.length := by
  have h : V23.v23Run [] (fun _ => none) (fun _ => "q") (fun _ => "n") base0 =
      .ok base0' := by
    unfold V23.v23Run V23.modify_arterial base0
    dsimp only
    rfl
  have hf := patient_regeometry_frame [] (fun _ => none) (fun _ => "q") (fun _ => "n")
    base0 base0' h
  exact ⟨h, hf.1, hf.2.1, hf.2.2.1, hf.2.2.2.1⟩
